import Mathlib

/-!
# SpeedSQL — verification of spec claims against a shallow embedding

This file embeds, in Lean 4, the parts of the SpeedSQL engine that the
spec claims talk about:

* `value_compare` and the `value_t` tagged union (src/util/value.cpp),
* expression evaluation `eval_expr` (src/core/executor.cpp),
* the transaction / savepoint layer (src/core/database.cpp),
* the `speedsql_step` statement dispatch and the transaction-statement
  branches of `parser_parse` (src/core/executor.cpp, src/sql/parser.cpp),
* WAL recovery `wal_recover` (src/storage/wal.cpp),
* the B+ tree (src/index/btree.cpp) down to its page-space accounting.

Machine integers are modelled as `Nat`/`Int` (with explicit wrap where the
source relies on it); C `double` is modelled as `Rat` (exact rationals, so
rounding and NaN are outside the model); byte buffers are `List Nat`.
Each definition mirrors one source function and is named after it where
Lean's lexer allows.
-/

namespace SpeedSQL

/-! ## Result codes (include/speedsql.h, `speedsql_result`) -/

def SPEEDSQL_OK : Nat := 0
def SPEEDSQL_ERROR : Nat := 1
def SPEEDSQL_NOMEM : Nat := 4
def SPEEDSQL_IOERR : Nat := 6
def SPEEDSQL_CORRUPT : Nat := 7
def SPEEDSQL_NOTFOUND : Nat := 8
def SPEEDSQL_FULL : Nat := 9
def SPEEDSQL_CONSTRAINT : Nat := 11
def SPEEDSQL_MISUSE : Nat := 13
def SPEEDSQL_RANGE : Nat := 14
def SPEEDSQL_ROW : Nat := 100
def SPEEDSQL_DONE : Nat := 101

/-! ## Byte-string comparison

`value_compare` compares Text/Blob payloads with `memcmp` over the shorter
length and then by length.  `memcmpInt a b n` is the C `memcmp(a, b, n)`
(sign and value: the difference of the first differing byte). -/

def memcmpInt : List Nat → List Nat → Nat → Int
  | _, _, 0 => 0
  | x :: xs, y :: ys, n + 1 =>
      if x ≠ y then (x : Int) - (y : Int) else memcmpInt xs ys n
  | _, _, _ + 1 => 0

/-- The memcmp-then-length comparison used for Text/Blob/Json payloads in
`value_compare` (src/util/value.cpp lines 165-184). -/
def bytesCompare (a b : List Nat) : Int :=
  let len := min a.length b.length
  let c := memcmpInt a b len
  if c ≠ 0 then c
  else if a.length < b.length then -1
  else if b.length < a.length then 1
  else 0

/-- Structural lexicographic-then-length comparator; proved equal to
`bytesCompare` below and used to state the Text/Blob ordering claim. -/
def lexCompare : List Nat → List Nat → Int
  | [], [] => 0
  | [], _ :: _ => -1
  | _ :: _, [] => 1
  | x :: xs, y :: ys =>
      if x ≠ y then (x : Int) - (y : Int) else lexCompare xs ys

/-! ## Values (include/speedsql_types.h, `value_t`) -/

/-- The `value_t` tagged union.  `float` carries a `Rat` (exact model of the
C `double`); Text/Blob/Json carry their payload bytes; Vector carries its
`float` components. -/
inductive Value where
  | null
  | int (i : Int)
  | float (f : Rat)
  | text (bytes : List Nat)
  | blob (bytes : List Nat)
  | json (bytes : List Nat)
  | vector (elems : List Rat)
deriving DecidableEq, Repr

/-- `value_type_t` codes: VAL_NULL=0 … VAL_VECTOR=6. -/
def typeCode : Value → Nat
  | .null => 0
  | .int _ => 1
  | .float _ => 2
  | .text _ => 3
  | .blob _ => 4
  | .json _ => 5
  | .vector _ => 6

def isNumeric (v : Value) : Prop := typeCode v = 1 ∨ typeCode v = 2

instance (v : Value) : Decidable (isNumeric v) := by unfold isNumeric; infer_instance

/-- The promoted `double` of a numeric value (the `(double)a->data.i : a->data.f`
ternaries in src/util/value.cpp line 195).  Only applied to Int/Float values. -/
def numRat : Value → Rat
  | .int i => (i : Rat)
  | .float f => f
  | _ => 0

/-- The same-type switch of `value_compare` (src/util/value.cpp lines 153-188).
The switch has no `VAL_VECTOR` case, so two vectors fall to `default: return 0`. -/
def sameTypeCompare : Value → Value → Int
  | .int i, .int j => if i < j then -1 else if i > j then 1 else 0
  | .float p, .float q => if p < q then -1 else if p > q then 1 else 0
  | .text s, .text t => bytesCompare s t
  | .json s, .json t => bytesCompare s t
  | .blob s, .blob t => bytesCompare s t
  | _, _ => 0

/-- `value_compare` (src/util/value.cpp lines 142-205) on values.  The C
null-pointer guards (lines 143-145) concern pointers, not values, and are
not part of the value-level model. -/
def value_compare (a b : Value) : Int :=
  if a = .null ∧ b = .null then 0
  else if a = .null then -1
  else if b = .null then 1
  else if typeCode a = typeCode b then sameTypeCompare a b
  else if isNumeric a ∧ isNumeric b then
    let da := numRat a
    let db := numRat b
    if da < db then -1 else if da > db then 1 else 0
  else (typeCode a : Int) - (typeCode b : Int)

/-- Proof helper: the `-1 / 1 / 0` comparison shape on `Int` used by
`sameTypeCompare` (not itself a source function). -/
abbrev cmp3i (x y : Int) : Int := if x < y then -1 else if x > y then 1 else 0

/-- Proof helper: the `-1 / 1 / 0` comparison shape on `Rat`. -/
abbrev cmp3q (x y : Rat) : Int := if x < y then -1 else if x > y then 1 else 0

/-! ## Database connection state (src/core/database.cpp)

The connection fields that the transaction and savepoint operations read
and write (`struct speedsql`, include/speedsql_internal.h lines 194-240).
The diagnostic fields `errcode`/`errmsg` (written by `sdb_set_error`) are
the connection's error report, not operational state, and are left outside
the model; nothing else of the struct is touched by these functions. -/

inductive TxnState where
  | txnNone
  | txnRead
  | txnWrite
deriving DecidableEq, Repr

/-- `struct savepoint_entry` (include/speedsql_internal.h lines 212-217).
`name` holds at most 63 bytes: `speedsql_savepoint` stores it with
`strncpy(..., 63)` plus a forced terminator. -/
structure SavepointEntry where
  name : List Nat
  walLsn : Nat
  lastRowidSaved : Int
  totalChangesSaved : Nat
deriving DecidableEq, Repr

instance : Inhabited SavepointEntry := ⟨⟨[], 0, 0, 0⟩⟩

structure DbState where
  txnState : TxnState
  currentTxn : Nat
  headerTxnId : Nat
  savepoints : List SavepointEntry
  lastRowid : Int
  totalChanges : Nat
deriving DecidableEq, Repr

/-- `speedsql_begin` (src/core/database.cpp lines 654-670).  `++db->header.txn_id`
is a u64 increment. -/
def speedsql_begin (s : DbState) : Nat × DbState :=
  if s.txnState ≠ .txnNone then (SPEEDSQL_MISUSE, s)
  else
    let t := (s.headerTxnId + 1) % 2 ^ 64
    (SPEEDSQL_OK, { s with headerTxnId := t, currentTxn := t, txnState := .txnRead })

/-- The results of the two fallible sub-operations `speedsql_commit` invokes:
`wal_commit` (when a WAL is attached and the transaction is in write state)
and `buffer_pool_flush`.  Passing them as inputs models the environment of
the call. -/
structure CommitEnv where
  walEnabled : Bool
  walCommitRc : Nat
  flushRc : Nat
deriving DecidableEq, Repr

/-- `speedsql_commit` (src/core/database.cpp lines 672-703). -/
def speedsql_commit (s : DbState) (env : CommitEnv) : Nat × DbState :=
  if s.txnState = .txnNone then (SPEEDSQL_OK, s)
  else if env.walEnabled ∧ s.txnState = .txnWrite ∧ env.walCommitRc ≠ SPEEDSQL_OK then
    (env.walCommitRc, s)
  else
    let rc := if s.txnState = .txnWrite then env.flushRc else SPEEDSQL_OK
    (rc, { s with txnState := .txnNone, currentTxn := 0 })

/-- `speedsql_rollback` (src/core/database.cpp lines 705-731).  The WAL
rollback record and `buffer_pool_invalidate_dirty` act outside this state. -/
def speedsql_rollback (s : DbState) : Nat × DbState :=
  if s.txnState = .txnNone then (SPEEDSQL_OK, s)
  else (SPEEDSQL_OK, { s with txnState := .txnNone, currentTxn := 0, savepoints := [] })

/-- Modelled from the spec: `wal_savepoint` is declared
(include/speedsql_internal.h line 183) and called by `speedsql_savepoint`,
but its definition is not under src/.  Per the spec (§4.5), it "writes a
savepoint record, returns its LSN"; this structure carries its result
code and the returned LSN as inputs of `speedsql_savepoint`. -/
structure SavepointEnv where
  walEnabled : Bool
  walRc : Nat
  walLsn : Nat
deriving DecidableEq, Repr

/-- `speedsql_savepoint` (src/core/database.cpp lines 734-784).  The C code
writes the new entry into `savepoints[savepoint_count]` before the WAL call
and only increments `savepoint_count` afterwards; the list here holds the
live entries, so a WAL failure leaves it unchanged. -/
def speedsql_savepoint (s : DbState) (name : List Nat) (env : SavepointEnv) :
    Nat × DbState :=
  if s.txnState = .txnNone then (SPEEDSQL_MISUSE, s)
  else if 32 ≤ s.savepoints.length then (SPEEDSQL_FULL, s)
  else if s.savepoints.any (fun sp => sp.name = name) then (SPEEDSQL_CONSTRAINT, s)
  else if env.walEnabled ∧ env.walRc ≠ SPEEDSQL_OK then (env.walRc, s)
  else
    let entry : SavepointEntry :=
      { name := name.take 63
        walLsn := if env.walEnabled then env.walLsn else 0
        lastRowidSaved := s.lastRowid
        totalChangesSaved := s.totalChanges }
    (SPEEDSQL_OK, { s with savepoints := s.savepoints ++ [entry] })

/-- The top-down savepoint search shared by `speedsql_release` and
`speedsql_rollback_to` (the `for (i = count-1; i >= 0; i--)` loops). -/
def findSavepointIdx (sps : List SavepointEntry) (name : List Nat) : Option Nat :=
  match sps.reverse.findIdx? (fun sp => sp.name = name) with
  | some j => some (sps.length - 1 - j)
  | none => none

/-- `speedsql_release` (src/core/database.cpp lines 786-816).  The
`wal_release_savepoint` call (whose definition is likewise not under src/)
has its result ignored by the C code and touches no connection state. -/
def speedsql_release (s : DbState) (name : List Nat) : Nat × DbState :=
  match findSavepointIdx s.savepoints name with
  | none => (SPEEDSQL_NOTFOUND, s)
  | some idx => (SPEEDSQL_OK, { s with savepoints := s.savepoints.take idx })

/-- `speedsql_rollback_to` (src/core/database.cpp lines 818-859).  The
`wal_rollback_to_savepoint` call and `buffer_pool_invalidate_dirty` act
outside this state. -/
def speedsql_rollback_to (s : DbState) (name : List Nat) : Nat × DbState :=
  match findSavepointIdx s.savepoints name with
  | none => (SPEEDSQL_NOTFOUND, s)
  | some idx =>
    let sp := s.savepoints.getD idx default
    (SPEEDSQL_OK,
      { s with
        lastRowid := sp.lastRowidSaved
        totalChanges := sp.totalChangesSaved
        savepoints := s.savepoints.take (idx + 1) })

/-! ## Expression evaluation (src/core/executor.cpp, `eval_expr`)

Binary operator tokens are the `token_type_t` values the parser can put in
`expr->data.binary.op`; the evaluator's switch handles the first twelve and
sends everything else (IS, %, LIKE, …) to its `default:` branch. -/

inductive BinOp where
  | tokPlus | tokMinus | tokStar | tokSlash
  | tokEq | tokNe | tokLt | tokLe | tokGt | tokGe
  | tokAnd | tokOr
  | tokIs | tokPercent | tokLike
deriving DecidableEq, Repr

inductive UnOp where
  | tokMinus | tokNot
deriving DecidableEq, Repr

/-- Expression nodes (`expr_t`).  `fnOrSubquery` stands for the
`EXPR_FUNCTION`/`EXPR_SUBQUERY` node kinds, which `eval_expr` sends to its
`default:` branch (returning Null). -/
inductive Expr where
  | lit (v : Value)
  | param (idx : Int)
  | col (idx : Int)
  | bin (op : BinOp) (l r : Expr)
  | un (op : UnOp) (e : Expr)
  | fnOrSubquery
deriving DecidableEq, Repr

/-- The evaluation context of a prepared statement: bound parameters,
output column count, and the current row (`stmt->params`,
`stmt->column_count`, `stmt->current_row`). -/
structure EvalCtx where
  params : List Value
  columnCount : Nat
  currentRow : Option (List Value)
deriving Repr

/-- Two's-complement wrap of signed 64-bit arithmetic (C signed overflow is
undefined; the wrap models the usual implementation behaviour). -/
def wrap64 (x : Int) : Int := (x + 2 ^ 63) % 2 ^ 64 - 2 ^ 63

/-- The `(left.type == VAL_INT) ? (double)left.data.i : left.data.f`
ternary of the arithmetic branches.  For a value that is neither Int nor
Float the C reads the raw `.f` union member (unspecified bits); the model
fixes that read at 0 and no theorem depends on it. -/
def dataF : Value → Rat
  | .int i => (i : Rat)
  | .float f => f
  | _ => 0

/-- The raw `.data.i` union read used by the AND/OR branches.  For a
non-Int value the C reads unspecified union bits; the model fixes the read
at 0 and no theorem depends on it. -/
def dataI : Value → Int
  | .int i => i
  | _ => 0

/-- `eval_expr` (src/core/executor.cpp lines 194-375).  `value_copy` is a
deep copy, so literal/parameter/column evaluation yields the stored value
itself.  Null propagation (lines 239-247) fires for either operand Null
and any operator other than `TOK_IS`; `TOK_IS` then falls to the switch,
whose `default:` yields Null as well. -/
def eval_expr (ctx : EvalCtx) : Expr → Except Nat Value
  | .lit v => .ok v
  | .param idx =>
      if idx < 1 ∨ (ctx.params.length : Int) < idx then .error SPEEDSQL_RANGE
      else .ok (ctx.params.getD (idx - 1).toNat .null)
  | .col idx =>
      if idx < 0 ∨ (ctx.columnCount : Int) ≤ idx then .error SPEEDSQL_RANGE
      else
        match ctx.currentRow with
        | some row => .ok (row.getD idx.toNat .null)
        | none => .ok .null
  | .fnOrSubquery => .ok .null
  | .un op e =>
      match eval_expr ctx e with
      | .error rc => .error rc
      | .ok v =>
        match op with
        | .tokMinus =>
            match v with
            | .int i => .ok (.int (wrap64 (-i)))
            | .float f => .ok (.float (-f))
            | _ => .ok .null
        | .tokNot =>
            match v with
            | .null => .ok .null
            | _ => .ok (.int (if dataI v = 0 then 1 else 0))
  | .bin op l r =>
      match eval_expr ctx l with
      | .error rc => .error rc
      | .ok lv =>
        match eval_expr ctx r with
        | .error rc => .error rc
        | .ok rv =>
          if (lv = .null ∨ rv = .null) ∧ op ≠ .tokIs then .ok .null
          else .ok (
            match op with
            | .tokPlus =>
                match lv, rv with
                | .int a, .int b => .int (wrap64 (a + b))
                | _, _ => .float (dataF lv + dataF rv)
            | .tokMinus =>
                match lv, rv with
                | .int a, .int b => .int (wrap64 (a - b))
                | _, _ => .float (dataF lv - dataF rv)
            | .tokStar =>
                match lv, rv with
                | .int a, .int b => .int (wrap64 (a * b))
                | _, _ => .float (dataF lv * dataF rv)
            | .tokSlash =>
                if rv = .int 0 then .null
                else if rv = .float 0 then .null
                else .float (dataF lv / dataF rv)
            | .tokEq => .int (if value_compare lv rv = 0 then 1 else 0)
            | .tokNe => .int (if value_compare lv rv ≠ 0 then 1 else 0)
            | .tokLt => .int (if value_compare lv rv < 0 then 1 else 0)
            | .tokLe => .int (if value_compare lv rv ≤ 0 then 1 else 0)
            | .tokGt => .int (if value_compare lv rv > 0 then 1 else 0)
            | .tokGe => .int (if value_compare lv rv ≥ 0 then 1 else 0)
            | .tokAnd => .int (if dataI lv ≠ 0 ∧ dataI rv ≠ 0 then 1 else 0)
            | .tokOr => .int (if dataI lv ≠ 0 ∨ dataI rv ≠ 0 then 1 else 0)
            | _ => .null)

/-! ## Statement dispatch (src/core/executor.cpp, `speedsql_step`) and the
transaction-statement branches of `parser_parse` (src/sql/parser.cpp) -/

/-- `sql_op_t` (include/speedsql_internal.h lines 247-262). -/
inductive SqlOp where
  | sqlSelect | sqlInsert | sqlUpdate | sqlDelete
  | sqlCreateTable | sqlDropTable | sqlCreateIndex | sqlDropIndex
  | sqlBegin | sqlCommit | sqlRollback
  | sqlSavepoint | sqlRelease | sqlRollbackTo
deriving DecidableEq, Repr

/-- The tokens consumed by the transaction-statement branches of
`parser_parse`; `tOther` stands for any other token (SELECT, INSERT,
punctuation, …), whose statements are parsed by the other branches. -/
inductive Token where
  | tBEGIN | tTRANSACTION | tCOMMIT | tROLLBACK | tTO | tSAVEPOINT | tRELEASE
  | tIdent (name : List Nat)
  | tOther
deriving DecidableEq, Repr

/-- The fields of `parsed_stmt_t` that a transaction statement carries:
`op` and `savepoint_name`. -/
structure ParsedTxnStmt where
  op : SqlOp
  savepointName : Option (List Nat)
deriving DecidableEq, Repr

/-- The BEGIN/COMMIT/ROLLBACK/ROLLBACK-TO/SAVEPOINT/RELEASE branches of
`parser_parse` (src/sql/parser.cpp lines 860-909).  `none` covers both a
leading token handled by another parse function and a failed
`consume(TOK_IDENT, …)`, which sets the parser error so `speedsql_prepare`
discards the statement. -/
def parse_txn_stmt : List Token → Option ParsedTxnStmt
  | .tBEGIN :: _ => some ⟨.sqlBegin, none⟩
  | .tCOMMIT :: _ => some ⟨.sqlCommit, none⟩
  | .tROLLBACK :: rest =>
      match rest with
      | .tTO :: rest2 =>
          let rest3 := match rest2 with
            | .tSAVEPOINT :: r => r
            | _ => rest2
          match rest3 with
          | .tIdent n :: _ => some ⟨.sqlRollbackTo, some n⟩
          | _ => none
      | _ => some ⟨.sqlRollback, none⟩
  | .tSAVEPOINT :: rest =>
      match rest with
      | .tIdent n :: _ => some ⟨.sqlSavepoint, some n⟩
      | _ => none
  | .tRELEASE :: rest =>
      let rest2 := match rest with
        | .tSAVEPOINT :: r => r
        | _ => rest
      match rest2 with
      | .tIdent n :: _ => some ⟨.sqlRelease, some n⟩
      | _ => none
  | _ => none

/-- The switch of `speedsql_step` (src/core/executor.cpp lines 2002-2094)
on a freshly prepared statement (`executed = false`).  The
SELECT/INSERT/…/DROP INDEX branches run the executor and are abstracted by
`execRc`, the result of their sub-execution; BEGIN/COMMIT/ROLLBACK
delegate to the Database layer.  The switch has no case for
`SQL_SAVEPOINT`, `SQL_RELEASE` or `SQL_ROLLBACK_TO`: those ops reach
`default:`, which sets the error "Unsupported SQL operation" and returns
`SPEEDSQL_ERROR` without touching the Database layer. -/
def speedsql_step_dispatch (op : SqlOp) (s : DbState) (cenv : CommitEnv)
    (execRc : Nat) : Nat × DbState :=
  match op with
  | .sqlSelect | .sqlInsert | .sqlUpdate | .sqlDelete
  | .sqlCreateTable | .sqlDropTable | .sqlCreateIndex | .sqlDropIndex => (execRc, s)
  | .sqlBegin => speedsql_begin s
  | .sqlCommit => speedsql_commit s cenv
  | .sqlRollback => speedsql_rollback s
  | .sqlSavepoint | .sqlRelease | .sqlRollbackTo => (SPEEDSQL_ERROR, s)

/-! ## WAL recovery (src/storage/wal.cpp, `wal_recover`)

The WAL file past its 64-byte header is modelled as the list of records it
serializes, each with the fields of `wal_record_header_t` plus its before-
and after-images.  Both passes of `wal_recover` walk the same byte
positions with the same stop conditions (read failure, `lsn == 0`, or
`lsn > current_lsn`), so both see the same record prefix; the byte-level
walk is modelled by `takeWhile` over the record list. -/

def WAL_RECORD_BEGIN : Nat := 1
def WAL_RECORD_COMMIT : Nat := 2
def WAL_RECORD_ROLLBACK : Nat := 3
def WAL_RECORD_PAGE : Nat := 4
def WAL_RECORD_CHECKPOINT : Nat := 5

/-- `INVALID_PAGE_ID` is `(page_id_t)-1`, the all-ones u64. -/
def invalidPageId : Nat := 2 ^ 64 - 1

/-- One WAL record: the `wal_record_header_t` fields and the two page
images (empty for non-page records). -/
structure WalRecord where
  lsn : Nat
  txnId : Nat
  rtype : Nat
  pageId : Nat
  dataLen : Nat
  before : List Nat
  after : List Nat
deriving DecidableEq, Repr

/-- `txn_status_t` (src/storage/wal.cpp lines 370-374). -/
structure TxnStatus where
  txnId : Nat
  committed : Bool
  rolledBack : Bool
deriving DecidableEq, Repr

/-- `find_or_add_txn` (src/storage/wal.cpp lines 377-402): the returned
pointer aliases the matching or freshly appended entry; the model appends
when absent. -/
def find_or_add_txn (txns : List TxnStatus) (t : Nat) : List TxnStatus :=
  if txns.any (fun st => st.txnId = t) then txns else txns ++ [⟨t, false, false⟩]

/-- The per-record status update of the first pass (src/storage/wal.cpp
lines 445-457): find or add the transaction, then set its committed or
rolled-back flag according to the record type. -/
def markTxn (txns : List TxnStatus) (t ty : Nat) : List TxnStatus :=
  (find_or_add_txn txns t).map fun st =>
    if st.txnId = t then
      if ty = WAL_RECORD_COMMIT then { st with committed := true }
      else if ty = WAL_RECORD_ROLLBACK then { st with rolledBack := true }
      else st
    else st

/-- The record prefix both passes of `wal_recover` visit: the scan stops at
the first record with `lsn == 0` or `lsn > wal->current_lsn`
(src/storage/wal.cpp lines 441-443 and 476-478). -/
def walValidRecords (currentLsn : Nat) (recs : List WalRecord) : List WalRecord :=
  recs.takeWhile fun r => decide (r.lsn ≠ 0 ∧ r.lsn ≤ currentLsn)

/-- First pass of `wal_recover`: classify every transaction id. -/
def walScanStatuses (recs : List WalRecord) : List TxnStatus :=
  recs.foldl (fun txns r => markTxn txns r.txnId r.rtype) []

/-- The `should_apply` loop of the second pass (src/storage/wal.cpp lines
481-487): a record is applied when its transaction's status entry has the
committed flag. -/
def walShouldApply (txns : List TxnStatus) (t : Nat) : Bool :=
  txns.any fun st => st.txnId = t && st.committed

/-- Second pass of `wal_recover` (src/storage/wal.cpp lines 467-508),
abstracted as the sequence of `file_write` calls it performs on the
database file: for every applied page record with a valid page id, the
after-image (`data_len` bytes read at `pos + sizeof(hdr) + data_len`) is
written at byte offset `page_id * pool->page_size`. -/
def wal_recover_writes (currentLsn pageSize : Nat) (recs : List WalRecord) :
    List (Nat × List Nat) :=
  let valid := walValidRecords currentLsn recs
  let txns := walScanStatuses valid
  valid.filterMap fun r =>
    if r.rtype = WAL_RECORD_PAGE ∧ walShouldApply txns r.txnId = true
        ∧ r.pageId ≠ invalidPageId then
      some (r.pageId * pageSize, r.after.take r.dataLen)
    else none

/-- A commit record for transaction `t` occurs in `recs`. -/
def hasCommitRecord (recs : List WalRecord) (t : Nat) : Prop :=
  ∃ r ∈ recs, r.txnId = t ∧ r.rtype = WAL_RECORD_COMMIT

/-- A rollback record for transaction `t` occurs in `recs`. -/
def hasRollbackRecord (recs : List WalRecord) (t : Nat) : Prop :=
  ∃ r ∈ recs, r.txnId = t ∧ r.rtype = WAL_RECORD_ROLLBACK

instance (recs : List WalRecord) (t : Nat) : Decidable (hasCommitRecord recs t) := by
  unfold hasCommitRecord; infer_instance

instance (recs : List WalRecord) (t : Nat) : Decidable (hasRollbackRecord recs t) := by
  unfold hasRollbackRecord; infer_instance

/-! ## B+ tree (src/index/btree.cpp)

Pages live in a buffer pool keyed by page id; the model carries them as an
association list.  A leaf page is its ordered cell array plus the
`free_end` allocation pointer (cells are carved from the page tail;
`free_start` stays at the leaf header size and the offset array length is
the cell count, so they are not separate fields here).  An internal page
is its key array and child-pointer array.  `buffer_pool_new_page` returns
a zeroed page whose id is the file size divided by the page size, i.e.
consecutive ids — modelled by `nextPageId`.  The page size is the pool's
`page_size`, a `buffer_pool_init` parameter, so the model keeps it as a
field of the tree state.

`sizeof(page_header_t)` is 40: u8 page_type, u8 flags, u16 cell_count,
u32 free_start, u32 free_end, 4 bytes padding, u64 right_ptr, u64 txn_id,
u32 checksum, 4 bytes tail padding. -/

def pageHeaderSize : Nat := 40

/-- `BTREE_LEAF_HEADER_SIZE` (btree.cpp line 37): header + key count (2) +
next leaf (8) + prev leaf (8) = 58. -/
def BTREE_LEAF_HEADER_SIZE : Nat := pageHeaderSize + 2 + 8 + 8

/-- `BTREE_INTERNAL_HEADER_SIZE` (btree.cpp line 38) = 42. -/
def BTREE_INTERNAL_HEADER_SIZE : Nat := pageHeaderSize + 2

def BTREE_MAX_DEPTH : Nat := 32

/-- One leaf cell: key length (u16), value length (u16), key bytes, value
bytes. -/
structure Cell where
  key : List Nat
  val : List Nat
deriving DecidableEq, Repr

instance : Inhabited Cell := ⟨⟨[], []⟩⟩

/-- The on-page size of a cell: `4 + key_len + value_len`. -/
def cellSize (c : Cell) : Nat := 4 + c.key.length + c.val.length

structure LeafPage where
  cells : List Cell
  freeEnd : Nat
  nextLeaf : Nat
  prevLeaf : Nat
deriving DecidableEq, Repr

structure InternalPage where
  keys : List (List Nat)
  children : List Nat
deriving DecidableEq, Repr

inductive Page where
  | leaf (p : LeafPage)
  | internal (p : InternalPage)
deriving DecidableEq, Repr

def putPage (ps : List (Nat × Page)) (pid : Nat) (p : Page) : List (Nat × Page) :=
  (pid, p) :: ps.filter (fun e => e.1 ≠ pid)

def getPage (ps : List (Nat × Page)) (pid : Nat) : Option Page :=
  (ps.find? (fun e => e.1 = pid)).map (·.2)

/-- `btree_t`: root page id, fixed internal key width (`key_size`, 0 until
first set), the pool's page size, and the pool/file contents. -/
structure BtState where
  pages : List (Nat × Page)
  nextPageId : Nat
  rootPage : Nat
  keySize : Nat
  pageSize : Nat
deriving DecidableEq, Repr

/-- The tree comparator: the executor opens every tree with
`value_compare`, and both search routines wrap the stored key bytes as a
`VAL_BLOB` value, so key comparison is `value_compare` on two blobs. -/
def treeCmp (a b : List Nat) : Int := value_compare (.blob a) (.blob b)

/-- The binary-search loop of `search_internal` (btree.cpp lines 118-133):
`cmp(key, keys[mid]) <= 0` moves `hi` down, else `lo` past `mid`; returns
`lo`, the first index whose key is ≥ the probe.  The loop is encoded with
a fuel argument (each iteration shrinks `hi - lo` by at least one, so any
fuel ≥ `hi - lo` runs the loop to its fixpoint; callers pass the key
count). -/
def search_internal_loop (keys : List (List Nat)) (key : List Nat) :
    Nat → Nat → Nat → Nat
  | 0, lo, _ => lo
  | fuel + 1, lo, hi =>
    if lo < hi then
      let mid := (lo + hi) / 2
      if treeCmp key (keys.getD mid []) ≤ 0 then
        search_internal_loop keys key fuel lo mid
      else
        search_internal_loop keys key fuel (mid + 1) hi
    else lo

/-- `search_internal` (btree.cpp lines 113-134). -/
def search_internal (p : InternalPage) (key : List Nat) : Nat :=
  if p.keys.length = 0 then 0
  else search_internal_loop p.keys key p.keys.length 0 p.keys.length

/-- The binary-search loop of `search_leaf` (btree.cpp lines 162-184):
three-way compare with an exact-hit flag; fuel-encoded like
`search_internal_loop`. -/
def search_leaf_loop (cells : List Cell) (key : List Nat) :
    Nat → Nat → Nat → Nat × Bool
  | 0, lo, _ => (lo, false)
  | fuel + 1, lo, hi =>
    if lo < hi then
      let mid := (lo + hi) / 2
      let c := treeCmp key (cells.getD mid default).key
      if c < 0 then search_leaf_loop cells key fuel lo mid
      else if c > 0 then search_leaf_loop cells key fuel (mid + 1) hi
      else (mid, true)
    else (lo, false)

/-- `search_leaf` (btree.cpp lines 154-185). -/
def search_leaf (p : LeafPage) (key : List Nat) : Nat × Bool :=
  if p.cells.length = 0 then (0, false)
  else search_leaf_loop p.cells key p.cells.length 0 p.cells.length

/-- `insert_into_leaf` (btree.cpp lines 469-515).  The space check runs
BEFORE the duplicate check: `free_end - free_start - count*2` must hold
the cell plus one offset slot, else Full; only then the binary search may
report an exact hit and fail with Constraint. -/
def insert_into_leaf (pageSize : Nat) (leaf : LeafPage) (key val : List Nat) :
    Except Nat LeafPage :=
  let count := leaf.cells.length
  let cellSz := 4 + key.length + val.length
  let freeSpace := leaf.freeEnd - BTREE_LEAF_HEADER_SIZE - count * 2
  if freeSpace < cellSz + 2 then .error SPEEDSQL_FULL
  else
    let (idx, exact) := search_leaf leaf key
    if exact then .error SPEEDSQL_CONSTRAINT
    else .ok { leaf with
      cells := leaf.cells.insertIdx idx ⟨key, val⟩
      freeEnd := leaf.freeEnd - cellSz }

/-- `split_leaf` (btree.cpp lines 518-621).  Allocates the new right leaf,
relinks the leaf chain (including the old right neighbour's prev pointer),
moves the cells from `split_point` on into the new leaf, truncates the old
leaf's cell count WITHOUT resetting its `free_end` (the moved cells stay
as dead bytes in the old page tail), then inserts the new cell into the
chosen half; on a failure of that insert the function returns with both
pages already rewritten in the pool.  The separator is the first key of
the new leaf read after the insert. -/
def split_leaf (s : BtState) (leafId : Nat) (leaf : LeafPage) (key val : List Nat) :
    Nat × BtState × Option (Nat × List Nat) :=
  let count := leaf.cells.length
  let newPageId := s.nextPageId
  let s1 : BtState := { s with nextPageId := s.nextPageId + 1 }
  let oldNext := leaf.nextLeaf
  let newLeaf0 : LeafPage :=
    { cells := [], freeEnd := s.pageSize, nextLeaf := oldNext, prevLeaf := leafId }
  let s2 := if oldNext ≠ invalidPageId then
      match getPage s1.pages oldNext with
      | some (.leaf np) =>
          { s1 with pages := putPage s1.pages oldNext (.leaf { np with prevLeaf := newPageId }) }
      | _ => s1
    else s1
  let (insertIdx, _) := search_leaf leaf key
  let splitPoint0 := (count + 1) / 2
  let splitPoint := if insertIdx < splitPoint0 then splitPoint0 - 1 else splitPoint0
  let movedCells := leaf.cells.drop splitPoint
  let movedSize := (movedCells.map cellSize).sum
  let newLeaf1 : LeafPage :=
    { newLeaf0 with cells := movedCells, freeEnd := s.pageSize - movedSize }
  let leaf1 : LeafPage := { leaf with cells := leaf.cells.take splitPoint, nextLeaf := newPageId }
  if insertIdx ≤ splitPoint then
    match insert_into_leaf s.pageSize leaf1 key val with
    | .error rc =>
        (rc, { s2 with
          pages := putPage (putPage s2.pages leafId (.leaf leaf1)) newPageId (.leaf newLeaf1) },
          none)
    | .ok leaf2 =>
        let sep := (newLeaf1.cells.getD 0 default).key
        (SPEEDSQL_OK, { s2 with
          pages := putPage (putPage s2.pages leafId (.leaf leaf2)) newPageId (.leaf newLeaf1) },
          some (newPageId, sep))
  else
    match insert_into_leaf s.pageSize newLeaf1 key val with
    | .error rc =>
        (rc, { s2 with
          pages := putPage (putPage s2.pages leafId (.leaf leaf1)) newPageId (.leaf newLeaf1) },
          none)
    | .ok newLeaf2 =>
        let sep := (newLeaf2.cells.getD 0 default).key
        (SPEEDSQL_OK, { s2 with
          pages := putPage (putPage s2.pages leafId (.leaf leaf1)) newPageId (.leaf newLeaf2) },
          some (newPageId, sep))

/-- `insert_into_internal` (btree.cpp lines 624-663).  The space check uses
the inserted key's length; on success the tree's `key_size` is fixed at
that length if still zero, then the entries after the insertion point are
shifted and `[child_idx := left, key_idx := key, child_idx+1 := right]`
are written.  On a fresh node (no entries) the same writes produce
`children = [left, right]`. -/
def insert_into_internal (s : BtState) (node : InternalPage) (key : List Nat)
    (left right : Nat) : Nat × BtState × InternalPage :=
  let count := node.keys.length
  let idx := search_internal node key
  let entrySize := 8 + key.length
  let used := BTREE_INTERNAL_HEADER_SIZE + (count + 1) * entrySize + 8
  if used > s.pageSize then (SPEEDSQL_FULL, s, node)
  else
    let s1 := if s.keySize = 0 then { s with keySize := key.length } else s
    let children1 := if idx < node.children.length
        then node.children.set idx left
        else node.children ++ List.replicate (idx - node.children.length) 0 ++ [left]
    let node1 : InternalPage :=
      { keys := node.keys.insertIdx idx key
        children := children1.insertIdx (idx + 1) right }
    (SPEEDSQL_OK, s1, node1)

/-- `create_new_root` (btree.cpp lines 666-696). -/
def create_new_root (s : BtState) (left right : Nat) (sep : List Nat) : Nat × BtState :=
  let newRootId := s.nextPageId
  let s1 : BtState := { s with nextPageId := s.nextPageId + 1 }
  let s2 := if s1.keySize = 0 then { s1 with keySize := sep.length } else s1
  let root : InternalPage := { keys := [sep], children := [left, right] }
  (SPEEDSQL_OK,
    { s2 with pages := putPage s2.pages newRootId (.internal root), rootPage := newRootId })

/-- `split_internal` (btree.cpp lines 306-384): the keys after the middle
one move to a fresh node (whose `child0` is set only when at least one
entry moves), the middle key becomes the separator (read before the
truncation), the old node is truncated to `mid` keys, and the pending key
is inserted into the half chosen by its insertion index. -/
def split_internal (s : BtState) (nodeId : Nat) (node : InternalPage) (key : List Nat)
    (left right : Nat) : Nat × BtState × Nat × List Nat :=
  let count := node.keys.length
  let newPageId := s.nextPageId
  let s1 : BtState := { s with nextPageId := s.nextPageId + 1 }
  let insertIdx := search_internal node key
  let mid := count / 2
  let newNode : InternalPage :=
    if mid + 1 < count then
      { keys := node.keys.drop (mid + 1), children := node.children.drop (mid + 1) }
    else { keys := [], children := [] }
  let sep := node.keys.getD mid []
  let node1 : InternalPage :=
    { keys := node.keys.take mid, children := node.children.take (mid + 1) }
  if insertIdx ≤ mid then
    match insert_into_internal s1 node1 key left right with
    | (rc, s2, node2) =>
      if rc = SPEEDSQL_OK then
        (SPEEDSQL_OK, { s2 with
          pages := putPage (putPage s2.pages nodeId (.internal node2)) newPageId (.internal newNode) },
          newPageId, sep)
      else
        (rc, { s2 with
          pages := putPage (putPage s2.pages nodeId (.internal node1)) newPageId (.internal newNode) },
          newPageId, sep)
  else
    match insert_into_internal s1 newNode key left right with
    | (rc, s2, newNode2) =>
      if rc = SPEEDSQL_OK then
        (SPEEDSQL_OK, { s2 with
          pages := putPage (putPage s2.pages nodeId (.internal node1)) newPageId (.internal newNode2) },
          newPageId, sep)
      else
        (rc, { s2 with
          pages := putPage (putPage s2.pages nodeId (.internal node1)) newPageId (.internal newNode) },
          newPageId, sep)

/-- `insert_into_parent` (btree.cpp lines 387-424), walking the recorded
path from its last entry upward (the C recursion on `path_len - 1`): here
on the reversed path. -/
def insert_into_parent_rev (s : BtState) (rpath : List (Nat × Nat))
    (left right : Nat) (sep : List Nat) : Nat × BtState :=
  match rpath with
  | [] => create_new_root s left right sep
  | (parentId, _) :: rest =>
    match getPage s.pages parentId with
    | some (.internal parent) =>
      match insert_into_internal s parent sep left right with
      | (rc, s1, parent1) =>
        if rc = SPEEDSQL_FULL then
          match split_internal s1 parentId parent sep left right with
          | (rc2, s2, newId, parentSep) =>
            if rc2 ≠ SPEEDSQL_OK then (rc2, s2)
            else insert_into_parent_rev s2 rest parentId newId parentSep
        else (rc, { s1 with pages := putPage s1.pages parentId (.internal parent1) })
    | _ => (SPEEDSQL_IOERR, s)

/-- `find_leaf` (btree.cpp lines 250-270): descend with no depth cap; the
fuel argument models the unbounded loop (none is needed beyond the tree
height; exhaustion maps to the `buffer_pool_get` failure path). -/
def find_leaf_go (s : BtState) (key : List Nat) :
    Nat → Nat → Option (Nat × LeafPage)
  | 0, _ => none
  | fuel + 1, pageId =>
    match getPage s.pages pageId with
    | none => none
    | some (.leaf l) => some (pageId, l)
    | some (.internal node) =>
      let idx := search_internal node key
      find_leaf_go s key fuel (node.children.getD idx 0)

/-- `find_leaf_with_path` (btree.cpp lines 273-303): records (page id,
descent slot) per internal node, refusing depth ≥ 32. -/
def find_leaf_with_path_go (s : BtState) (key : List Nat) :
    Nat → Nat → List (Nat × Nat) → Option (Nat × LeafPage × List (Nat × Nat))
  | 0, _, _ => none
  | fuel + 1, pageId, path =>
    match getPage s.pages pageId with
    | none => none
    | some (.leaf l) => some (pageId, l, path)
    | some (.internal node) =>
      if path.length < BTREE_MAX_DEPTH then
        let idx := search_internal node key
        find_leaf_with_path_go s key fuel (node.children.getD idx 0) (path ++ [(pageId, idx)])
      else none

/-- `btree_find` (btree.cpp lines 426-466). -/
def btree_find (s : BtState) (key : List Nat) (fuel : Nat) : Except Nat (List Nat) :=
  match find_leaf_go s key fuel s.rootPage with
  | none => .error SPEEDSQL_IOERR
  | some (_, leaf) =>
    let (idx, exact) := search_leaf leaf key
    if exact then .ok (leaf.cells.getD idx default).val
    else .error SPEEDSQL_NOTFOUND

/-- `btree_insert` (btree.cpp lines 698-741). -/
def btree_insert (s : BtState) (key val : List Nat) (fuel : Nat) : Nat × BtState :=
  match find_leaf_with_path_go s key fuel s.rootPage [] with
  | none => (SPEEDSQL_IOERR, s)
  | some (leafId, leaf, path) =>
    match insert_into_leaf s.pageSize leaf key val with
    | .ok leaf1 => (SPEEDSQL_OK, { s with pages := putPage s.pages leafId (.leaf leaf1) })
    | .error rc =>
      if rc = SPEEDSQL_FULL then
        match split_leaf s leafId leaf key val with
        | (rc2, s2, some (newLeafId, sep)) =>
            insert_into_parent_rev s2 path.reverse leafId newLeafId sep
        | (rc2, s2, none) => (rc2, s2)
      else (rc, s)

/-- `btree_create` (btree.cpp lines 187-225): the root is a fresh empty
leaf; `key_size` starts at 0. -/
def btree_create (pageSize startId : Nat) : BtState :=
  let root : LeafPage :=
    { cells := [], freeEnd := pageSize, nextLeaf := invalidPageId, prevLeaf := invalidPageId }
  { pages := [(startId, .leaf root)], nextPageId := startId + 1, rootPage := startId,
    keySize := 0, pageSize := pageSize }

instance {ε α : Type} [DecidableEq ε] [DecidableEq α] : DecidableEq (Except ε α)
  | .ok a, .ok b =>
      if h : a = b then .isTrue (congrArg Except.ok h)
      else .isFalse (fun hc => h (Except.ok.inj hc))
  | .error e, .error f =>
      if h : e = f then .isTrue (congrArg Except.error h)
      else .isFalse (fun hc => h (Except.error.inj hc))
  | .ok _, .error _ => .isFalse (fun hc => Except.noConfusion hc)
  | .error _, .ok _ => .isFalse (fun hc => Except.noConfusion hc)

/-- An 8-byte big-endian-ordered demo key. -/
def btDemoKey (i : Nat) : List Nat := [0, 0, 0, 0, 0, 0, 0, i]

/-- An 8-byte demo value. -/
def btDemoVal (i : Nat) : List Nat := [i, 0, 0, 0, 0, 0, 0, 0]

/-! ## Theorems -/

/-! ### Lemmas about the byte-string comparators -/

theorem lexCompare_self (a : List Nat) : lexCompare a a = 0 := by
  induction a with
  | nil => rfl
  | cons x xs ih => simp [lexCompare, ih]

theorem lexCompare_neg (a b : List Nat) : lexCompare a b = - lexCompare b a := by
  induction a generalizing b with
  | nil => cases b <;> simp [lexCompare]
  | cons x xs ih =>
    cases b with
    | nil => simp [lexCompare]
    | cons y ys =>
      by_cases h : x = y
      · subst h; simpa [lexCompare] using ih ys
      · have h2 : y ≠ x := fun hh => h hh.symm
        simp only [lexCompare, if_pos h, if_pos h2]
        omega

theorem lexCompare_eq_zero_iff (a b : List Nat) : lexCompare a b = 0 ↔ a = b := by
  induction a generalizing b with
  | nil => cases b <;> simp [lexCompare]
  | cons x xs ih =>
    cases b with
    | nil => simp [lexCompare]
    | cons y ys =>
      by_cases h : x = y
      · subst h; simp [lexCompare, ih]
      · have : (x : Int) - (y : Int) ≠ 0 := by
          intro hz
          exact h (by omega)
        simp [lexCompare, h, this]

theorem lexCompare_cons (x y : Nat) (xs ys : List Nat) :
    lexCompare (x :: xs) (y :: ys) =
      if x ≠ y then (x : Int) - (y : Int) else lexCompare xs ys := rfl

theorem lexCompare_trans {a b c : List Nat} (hab : lexCompare a b ≤ 0)
    (hbc : lexCompare b c ≤ 0) : lexCompare a c ≤ 0 := by
  induction a generalizing b c with
  | nil => cases c <;> simp [lexCompare]
  | cons x xs ih =>
    cases b with
    | nil => simp [lexCompare] at hab
    | cons y ys =>
      cases c with
      | nil => simp [lexCompare] at hbc
      | cons z zs =>
        rw [lexCompare_cons] at hab hbc ⊢
        by_cases hxy : x = y
        · rw [if_neg (by simpa using hxy)] at hab
          by_cases hyz : y = z
          · rw [if_neg (by simpa using hyz)] at hbc
            rw [if_neg (by simp [hxy, hyz])]
            exact ih hab hbc
          · rw [if_pos hyz] at hbc
            have hyzlt : y < z := by omega
            have hxz : x ≠ z := by omega
            rw [if_pos hxz]
            omega
        · rw [if_pos hxy] at hab
          have hxylt : x < y := by omega
          by_cases hyz : y = z
          · have hxz : x ≠ z := by omega
            rw [if_pos hxz]
            omega
          · rw [if_pos hyz] at hbc
            have hyzlt : y < z := by omega
            have hxz : x ≠ z := by omega
            rw [if_pos hxz]
            omega

theorem bytesCompare_cons (x y : Nat) (xs ys : List Nat) :
    bytesCompare (x :: xs) (y :: ys) =
      if x ≠ y then (x : Int) - (y : Int) else bytesCompare xs ys := by
  have hmin : (xs.length + 1) ⊓ (ys.length + 1) = (xs.length ⊓ ys.length) + 1 :=
    Nat.succ_min_succ _ _
  unfold bytesCompare
  simp only [List.length_cons, hmin, memcmpInt]
  by_cases h : x = y
  · subst h
    simp [Nat.add_lt_add_iff_right]
  · have hne : (x : Int) - (y : Int) ≠ 0 := by
      intro hz; exact h (by omega)
    simp [h, hne]

theorem bytesCompare_eq_lexCompare (a b : List Nat) :
    bytesCompare a b = lexCompare a b := by
  induction a generalizing b with
  | nil => cases b <;> simp [bytesCompare, lexCompare, memcmpInt]
  | cons x xs ih =>
    cases b with
    | nil => simp [bytesCompare, lexCompare, memcmpInt]
    | cons y ys =>
      rw [bytesCompare_cons]
      by_cases h : x = y
      · subst h; simp [lexCompare, ih]
      · simp [lexCompare, h]

/-! ### Lemmas about `value_compare` -/

theorem value_compare_self (v : Value) : value_compare v v = 0 := by
  cases v <;>
    simp [value_compare, sameTypeCompare, typeCode, bytesCompare_eq_lexCompare,
      lexCompare_self]

theorem cmp3i_neg (x y : Int) : cmp3i x y = - cmp3i y x := by
  unfold cmp3i; split_ifs <;> omega

theorem cmp3q_neg (x y : Rat) : cmp3q x y = - cmp3q y x := by
  unfold cmp3q
  split_ifs <;> linarith

theorem cmp3i_le_iff (x y : Int) : cmp3i x y ≤ 0 ↔ x ≤ y := by
  unfold cmp3i; split_ifs <;> omega

theorem cmp3q_le_iff (x y : Rat) : cmp3q x y ≤ 0 ↔ x ≤ y := by
  unfold cmp3q
  split_ifs with h1 h2
  · constructor
    · intro _; exact h1.le
    · intro _; norm_num
  · constructor
    · intro hc; norm_num at hc
    · intro hc; exact absurd hc (not_le.2 h2)
  · constructor
    · intro _; exact not_lt.1 h2
    · intro _; norm_num

theorem cmp3i_eq_zero_iff (x y : Int) : cmp3i x y = 0 ↔ x = y := by
  unfold cmp3i
  split_ifs with h1 h2 <;> constructor <;> intro hc
  · exact absurd hc (by norm_num)
  · omega
  · exact absurd hc (by norm_num)
  · omega
  · omega
  · rfl

theorem cmp3q_eq_zero_iff (x y : Rat) : cmp3q x y = 0 ↔ x = y := by
  unfold cmp3q
  split_ifs with h1 h2
  · constructor
    · intro hc; norm_num at hc
    · intro hc; exact absurd hc (ne_of_lt h1)
  · constructor
    · intro hc; norm_num at hc
    · intro hc; exact absurd hc (ne_of_gt h2)
  · constructor
    · intro _; exact le_antisymm (not_lt.1 h2) (not_lt.1 h1)
    · intro _; rfl

theorem value_compare_neg (a b : Value) : value_compare a b = - value_compare b a := by
  cases a <;> cases b
  case int.int i j => exact cmp3i_neg i j
  case float.float p q => exact cmp3q_neg p q
  case int.float i q => exact cmp3q_neg (i : Rat) q
  case float.int p j => exact cmp3q_neg p (j : Rat)
  case text.text s t =>
    show bytesCompare s t = - bytesCompare t s
    rw [bytesCompare_eq_lexCompare, bytesCompare_eq_lexCompare]
    exact lexCompare_neg s t
  case blob.blob s t =>
    show bytesCompare s t = - bytesCompare t s
    rw [bytesCompare_eq_lexCompare, bytesCompare_eq_lexCompare]
    exact lexCompare_neg s t
  case json.json s t =>
    show bytesCompare s t = - bytesCompare t s
    rw [bytesCompare_eq_lexCompare, bytesCompare_eq_lexCompare]
    exact lexCompare_neg s t
  all_goals simp [value_compare, typeCode, sameTypeCompare, isNumeric, numRat]

theorem value_compare_trans {a b c : Value} (ha : a ≠ .null) (hb : b ≠ .null)
    (hc : c ≠ .null) (hab : value_compare a b ≤ 0) (hbc : value_compare b c ≤ 0) :
    value_compare a c ≤ 0 := by
  cases a <;> cases b <;> cases c
  -- numeric triples: transitivity in the promoted rationals
  case int.int.int i j k =>
    have h1 : i ≤ j := (cmp3i_le_iff i j).1 hab
    have h2 : j ≤ k := (cmp3i_le_iff j k).1 hbc
    exact (cmp3i_le_iff i k).2 (le_trans h1 h2)
  case int.int.float i j q =>
    have h1 : i ≤ j := (cmp3i_le_iff i j).1 hab
    have h2 : (j : Rat) ≤ q := (cmp3q_le_iff (j : Rat) q).1 hbc
    exact (cmp3q_le_iff (i : Rat) q).2 (le_trans (by exact_mod_cast h1) h2)
  case int.float.int i q k =>
    have h1 : (i : Rat) ≤ q := (cmp3q_le_iff (i : Rat) q).1 hab
    have h2 : q ≤ (k : Rat) := (cmp3q_le_iff q (k : Rat)).1 hbc
    exact (cmp3i_le_iff i k).2 (by exact_mod_cast le_trans h1 h2)
  case int.float.float i q r =>
    have h1 : (i : Rat) ≤ q := (cmp3q_le_iff (i : Rat) q).1 hab
    have h2 : q ≤ r := (cmp3q_le_iff q r).1 hbc
    exact (cmp3q_le_iff (i : Rat) r).2 (le_trans h1 h2)
  case float.int.int p j k =>
    have h1 : p ≤ (j : Rat) := (cmp3q_le_iff p (j : Rat)).1 hab
    have h2 : j ≤ k := (cmp3i_le_iff j k).1 hbc
    exact (cmp3q_le_iff p (k : Rat)).2 (le_trans h1 (by exact_mod_cast h2))
  case float.int.float p j r =>
    have h1 : p ≤ (j : Rat) := (cmp3q_le_iff p (j : Rat)).1 hab
    have h2 : (j : Rat) ≤ r := (cmp3q_le_iff (j : Rat) r).1 hbc
    exact (cmp3q_le_iff p r).2 (le_trans h1 h2)
  case float.float.int p q k =>
    have h1 : p ≤ q := (cmp3q_le_iff p q).1 hab
    have h2 : q ≤ (k : Rat) := (cmp3q_le_iff q (k : Rat)).1 hbc
    exact (cmp3q_le_iff p (k : Rat)).2 (le_trans h1 h2)
  case float.float.float p q r =>
    have h1 : p ≤ q := (cmp3q_le_iff p q).1 hab
    have h2 : q ≤ r := (cmp3q_le_iff q r).1 hbc
    exact (cmp3q_le_iff p r).2 (le_trans h1 h2)
  -- byte-string triples
  case text.text.text s t u =>
    have h1 : bytesCompare s t ≤ 0 := hab
    have h2 : bytesCompare t u ≤ 0 := hbc
    show bytesCompare s u ≤ 0
    rw [bytesCompare_eq_lexCompare] at h1 h2 ⊢
    exact lexCompare_trans h1 h2
  case blob.blob.blob s t u =>
    have h1 : bytesCompare s t ≤ 0 := hab
    have h2 : bytesCompare t u ≤ 0 := hbc
    show bytesCompare s u ≤ 0
    rw [bytesCompare_eq_lexCompare] at h1 h2 ⊢
    exact lexCompare_trans h1 h2
  case json.json.json s t u =>
    have h1 : bytesCompare s t ≤ 0 := hab
    have h2 : bytesCompare t u ≤ 0 := hbc
    show bytesCompare s u ≤ 0
    rw [bytesCompare_eq_lexCompare] at h1 h2 ⊢
    exact lexCompare_trans h1 h2
  all_goals simp_all [value_compare, typeCode, sameTypeCompare, isNumeric, numRat]

theorem value_compare_antisymm_same_type {a b : Value}
    (ht : typeCode a = typeCode b) (hv : typeCode a ≠ 6)
    (h : value_compare a b = 0) : a = b := by
  cases a <;> cases b
  case null.null => rfl
  case vector.vector u v => exact absurd rfl hv
  case int.int i j =>
    have hij : i = j := (cmp3i_eq_zero_iff i j).1 h
    rw [hij]
  case float.float p q =>
    have hpq : p = q := (cmp3q_eq_zero_iff p q).1 h
    rw [hpq]
  case text.text s t =>
    have h1 : bytesCompare s t = 0 := h
    rw [bytesCompare_eq_lexCompare] at h1
    rw [(lexCompare_eq_zero_iff s t).1 h1]
  case blob.blob s t =>
    have h1 : bytesCompare s t = 0 := h
    rw [bytesCompare_eq_lexCompare] at h1
    rw [(lexCompare_eq_zero_iff s t).1 h1]
  case json.json s t =>
    have h1 : bytesCompare s t = 0 := h
    rw [bytesCompare_eq_lexCompare] at h1
    rw [(lexCompare_eq_zero_iff s t).1 h1]
  all_goals simp_all [typeCode]

/-! ### Claim C8 -/

/-- C8 (counterexample): `value_compare` is not antisymmetric within one
type — the same-type switch has no `VAL_VECTOR` case, so two distinct
Vector values compare equal. -/
theorem C8_vector_antisymmetry_counterexample :
    typeCode (Value.vector [0]) = typeCode (Value.vector [1])
      ∧ value_compare (Value.vector [0]) (Value.vector [1]) = 0
      ∧ Value.vector [0] ≠ Value.vector [1] := by
  refine ⟨rfl, by decide, by decide⟩

/-- C8 (amended): `value_compare` is a total preorder with Null strictly
least: it is reflexive, sign-antisymmetric, and transitive on non-Null
values; it is antisymmetric within one type for every type except Vector
(all Vector values compare equal); Int/Float pairs compare by promoting
the Int (promotion modelled exactly in `Rat`); Text and Blob compare
lexicographically by bytes and then by length. -/
theorem C8_value_compare_order :
    (∀ v : Value, v ≠ .null → value_compare .null v = -1 ∧ value_compare v .null = 1)
      ∧ (∀ v : Value, value_compare v v = 0)
      ∧ (∀ a b : Value, value_compare a b = - value_compare b a)
      ∧ (∀ a b c : Value, a ≠ .null → b ≠ .null → c ≠ .null →
          value_compare a b ≤ 0 → value_compare b c ≤ 0 → value_compare a c ≤ 0)
      ∧ (∀ a b : Value, typeCode a = typeCode b → typeCode a ≠ 6 →
          value_compare a b = 0 → a = b)
      ∧ (∀ (i : Int) (q : Rat), value_compare (.int i) (.float q) =
          if (i : Rat) < q then -1 else if (i : Rat) > q then 1 else 0)
      ∧ (∀ s t : List Nat, value_compare (.text s) (.text t) = lexCompare s t
          ∧ value_compare (.blob s) (.blob t) = lexCompare s t) := by
  refine ⟨?_, value_compare_self, value_compare_neg,
    fun a b c => value_compare_trans,
    fun a b => value_compare_antisymm_same_type, ?_, ?_⟩
  · intro v hv
    cases v with
    | null => exact absurd rfl hv
    | int i => exact ⟨rfl, rfl⟩
    | float f => exact ⟨rfl, rfl⟩
    | text s => exact ⟨rfl, rfl⟩
    | blob s => exact ⟨rfl, rfl⟩
    | json s => exact ⟨rfl, rfl⟩
    | vector l => exact ⟨rfl, rfl⟩
  · intro i q; rfl
  · intro s t
    constructor
    · show bytesCompare s t = lexCompare s t
      exact bytesCompare_eq_lexCompare s t
    · show bytesCompare s t = lexCompare s t
      exact bytesCompare_eq_lexCompare s t

/-- C8 witness: the order theorem instantiated at concrete values — the
transitivity leg shows `Int 1 ≤ Float 2 ≤ Text "" ` gives `Int 1 ≤ Text ""`
and the antisymmetry leg recovers equality of equal-byte Texts. -/
theorem C8_value_compare_order_witness :
    value_compare (.int 1) (.float 2) ≤ 0
      ∧ value_compare (.float 2) (.text []) ≤ 0
      ∧ value_compare (.int 1) (.text []) ≤ 0
      ∧ Value.text [65] = Value.text [65] :=
  ⟨by decide, by decide,
    C8_value_compare_order.2.2.2.1 (.int 1) (.float 2) (.text [])
      (by decide) (by decide) (by decide) (by decide) (by decide),
    C8_value_compare_order.2.2.2.2.1 (.text [65]) (.text [65])
      rfl (by decide) (by decide)⟩

/-! ### Claims C4, C5, C9, C10 -/

/-- C4 (counterexample): `speedsql_begin` succeeds from a state with a
non-empty savepoint stack (left over from a committed transaction, since
`speedsql_commit` does not clear it) and leaves the stack as it was — the
savepoint count does not become zero. -/
theorem C4_begin_counterexample :
    (speedsql_begin ⟨.txnNone, 0, 5, [⟨[97], 0, 0, 0⟩], 0, 0⟩).1 = SPEEDSQL_OK
      ∧ (speedsql_begin ⟨.txnNone, 0, 5, [⟨[97], 0, 0, 0⟩], 0, 0⟩).2.savepoints.length ≠ 0 := by
  decide

/-- C4 (amended): `speedsql_begin` fails with Misuse when a transaction is
already in progress, leaving the transaction fields, savepoint stack and
counters unchanged (only the diagnostic error report is written); otherwise
it advances the header's transaction id, adopts it as the current
transaction, and enters the read state — it does NOT clear the savepoint
stack, which is left exactly as it was. -/
theorem C4_begin_behaviour (s : DbState) :
    (s.txnState ≠ .txnNone → speedsql_begin s = (SPEEDSQL_MISUSE, s))
      ∧ (s.txnState = .txnNone →
          speedsql_begin s =
            (SPEEDSQL_OK,
              { s with
                headerTxnId := (s.headerTxnId + 1) % 2 ^ 64
                currentTxn := (s.headerTxnId + 1) % 2 ^ 64
                txnState := .txnRead })) := by
  constructor
  · intro h; simp [speedsql_begin, h]
  · intro h; simp [speedsql_begin, h]

/-- C4 witness: `speedsql_begin` at concrete states, through both branches
of `C4_begin_behaviour`. -/
theorem C4_begin_behaviour_witness :
    speedsql_begin ⟨.txnNone, 0, 5, [⟨[97], 0, 0, 0⟩], 0, 0⟩ =
        (SPEEDSQL_OK, ⟨.txnRead, 6, 6, [⟨[97], 0, 0, 0⟩], 0, 0⟩)
      ∧ speedsql_begin ⟨.txnRead, 6, 6, [], 0, 0⟩ =
        (SPEEDSQL_MISUSE, ⟨.txnRead, 6, 6, [], 0, 0⟩) := by
  constructor
  · have h := (C4_begin_behaviour ⟨.txnNone, 0, 5, [⟨[97], 0, 0, 0⟩], 0, 0⟩).2 rfl
    rw [h]; decide
  · exact (C4_begin_behaviour ⟨.txnRead, 6, 6, [], 0, 0⟩).1 (by decide)

/-- C5 (counterexample): when the dirty-page flush fails during
`speedsql_commit` (WAL disabled, `buffer_pool_flush` returns IoError),
the error is returned but the transaction is NOT left open: `txn_state`
is reset to none and `current_txn` is zeroed. -/
theorem C5_commit_flush_failure_counterexample :
    (speedsql_commit ⟨.txnWrite, 7, 7, [], 0, 0⟩ ⟨false, SPEEDSQL_OK, SPEEDSQL_IOERR⟩).1
        = SPEEDSQL_IOERR
      ∧ (speedsql_commit ⟨.txnWrite, 7, 7, [], 0, 0⟩
          ⟨false, SPEEDSQL_OK, SPEEDSQL_IOERR⟩).2.txnState = .txnNone
      ∧ (speedsql_commit ⟨.txnWrite, 7, 7, [], 0, 0⟩
          ⟨false, SPEEDSQL_OK, SPEEDSQL_IOERR⟩).2.currentTxn = 0 := by
  decide

/-- C5 (amended): only a WAL-commit failure leaves the transaction open
(`txn_state` and `current_txn` unchanged, so the caller may retry); when
the dirty-page flush fails the flush error is returned but the transaction
is closed (`txn_state` reset to none and `current_txn` zeroed). -/
theorem C5_commit_behaviour (s : DbState) (env : CommitEnv) :
    (s.txnState = .txnNone → speedsql_commit s env = (SPEEDSQL_OK, s))
      ∧ (s.txnState = .txnWrite → env.walEnabled = true → env.walCommitRc ≠ SPEEDSQL_OK →
          speedsql_commit s env = (env.walCommitRc, s))
      ∧ (s.txnState = .txnWrite → (env.walEnabled = false ∨ env.walCommitRc = SPEEDSQL_OK) →
          speedsql_commit s env =
            (env.flushRc, { s with txnState := .txnNone, currentTxn := 0 }))
      ∧ (s.txnState = .txnRead →
          speedsql_commit s env =
            (SPEEDSQL_OK, { s with txnState := .txnNone, currentTxn := 0 })) := by
  refine ⟨?_, ?_, ?_, ?_⟩
  · intro h; simp [speedsql_commit, h]
  · intro h hw hrc; simp [speedsql_commit, h, hw, hrc]
  · intro h hw
    rcases hw with hw | hw <;> simp [speedsql_commit, h, hw]
  · intro h; simp [speedsql_commit, h]

/-- C5 witness: `speedsql_commit` through the WAL-failure branch (left
open) and the flush-failure branch (closed) of `C5_commit_behaviour`. -/
theorem C5_commit_behaviour_witness :
    speedsql_commit ⟨.txnWrite, 7, 7, [], 0, 0⟩ ⟨true, SPEEDSQL_IOERR, SPEEDSQL_OK⟩ =
        (SPEEDSQL_IOERR, ⟨.txnWrite, 7, 7, [], 0, 0⟩)
      ∧ speedsql_commit ⟨.txnWrite, 7, 7, [], 0, 0⟩ ⟨false, SPEEDSQL_OK, SPEEDSQL_IOERR⟩ =
        (SPEEDSQL_IOERR, ⟨.txnNone, 0, 7, [], 0, 0⟩) := by
  constructor
  · exact (C5_commit_behaviour ⟨.txnWrite, 7, 7, [], 0, 0⟩
      ⟨true, SPEEDSQL_IOERR, SPEEDSQL_OK⟩).2.1 rfl rfl (by decide)
  · have h := (C5_commit_behaviour ⟨.txnWrite, 7, 7, [], 0, 0⟩
      ⟨false, SPEEDSQL_OK, SPEEDSQL_IOERR⟩).2.2.1 rfl (Or.inl rfl)
    rw [h]

/-- C9: `speedsql_savepoint` fails with Misuse outside a transaction, with
Full at 32 live savepoints, and with Constraint on a duplicate live name;
on success it records the current last-row-id and total-changes in the new
entry, stores the WAL savepoint record's LSN when WAL is enabled, and
pushes the entry onto the stack. -/
theorem C9_savepoint_behaviour (s : DbState) (name : List Nat) (env : SavepointEnv) :
    (s.txnState = .txnNone → speedsql_savepoint s name env = (SPEEDSQL_MISUSE, s))
      ∧ (s.txnState ≠ .txnNone → 32 ≤ s.savepoints.length →
          speedsql_savepoint s name env = (SPEEDSQL_FULL, s))
      ∧ (s.txnState ≠ .txnNone → s.savepoints.length < 32 →
          (∃ sp ∈ s.savepoints, sp.name = name) →
          speedsql_savepoint s name env = (SPEEDSQL_CONSTRAINT, s))
      ∧ (s.txnState ≠ .txnNone → s.savepoints.length < 32 →
          (∀ sp ∈ s.savepoints, sp.name ≠ name) →
          (env.walEnabled = true → env.walRc = SPEEDSQL_OK) →
          speedsql_savepoint s name env =
            (SPEEDSQL_OK,
              { s with
                savepoints := s.savepoints ++
                  [⟨name.take 63, if env.walEnabled then env.walLsn else 0,
                    s.lastRowid, s.totalChanges⟩] })) := by
  refine ⟨?_, ?_, ?_, ?_⟩
  · intro h; simp [speedsql_savepoint, h]
  · intro h hfull
    simp [speedsql_savepoint, h, hfull, Nat.not_lt.2 hfull]
  · intro h hlen hdup
    have hany : s.savepoints.any (fun sp => sp.name = name) = true := by
      rcases hdup with ⟨sp, hsp, hname⟩
      exact List.any_eq_true.2 ⟨sp, hsp, by simp [hname]⟩
    simp [speedsql_savepoint, h, Nat.not_le.2 hlen, hany]
  · intro h hlen hnodup hwal
    have hany : s.savepoints.any (fun sp => sp.name = name) = false := by
      rw [List.any_eq_false]
      intro sp hsp
      simp [hnodup sp hsp]
    cases hwe : env.walEnabled with
    | false => simp [speedsql_savepoint, h, Nat.not_le.2 hlen, hany, hwe]
    | true => simp [speedsql_savepoint, h, Nat.not_le.2 hlen, hany, hwe, hwal hwe]

/-- C9 witness: a successful savepoint from a concrete read-state
connection with WAL enabled, through `C9_savepoint_behaviour`. -/
theorem C9_savepoint_behaviour_witness :
    speedsql_savepoint ⟨.txnRead, 2, 2, [], 41, 5⟩ [97] ⟨true, SPEEDSQL_OK, 9⟩ =
      (SPEEDSQL_OK, ⟨.txnRead, 2, 2, [⟨[97], 9, 41, 5⟩], 41, 5⟩) := by
  have h := (C9_savepoint_behaviour ⟨.txnRead, 2, 2, [], 41, 5⟩ [97]
    ⟨true, SPEEDSQL_OK, 9⟩).2.2.2 (by decide) (by decide) (by simp) (fun _ => rfl)
  rw [h]; decide

/-- C10: called with a name matching no live savepoint — in particular
outside any transaction — `speedsql_release` and `speedsql_rollback_to`
return NotFound and leave the savepoint stack, last-row-id, total-changes
and transaction state unchanged; neither performs a transaction-state
check. -/
theorem C10_release_rollback_to_notfound (s : DbState) (name : List Nat)
    (h : ∀ sp ∈ s.savepoints, sp.name ≠ name) :
    speedsql_release s name = (SPEEDSQL_NOTFOUND, s)
      ∧ speedsql_rollback_to s name = (SPEEDSQL_NOTFOUND, s) := by
  have hidx : findSavepointIdx s.savepoints name = none := by
    unfold findSavepointIdx
    have hfind : s.savepoints.reverse.findIdx? (fun sp => sp.name = name) = none := by
      rw [List.findIdx?_eq_none_iff]
      intro sp hsp
      simp [h sp (List.mem_reverse.mp hsp)]
    rw [hfind]
  exact ⟨by simp [speedsql_release, hidx], by simp [speedsql_rollback_to, hidx]⟩

/-- C10 witness: both operations at a concrete out-of-transaction state
whose only live savepoint has a different name. -/
theorem C10_release_rollback_to_notfound_witness :
    speedsql_release ⟨.txnNone, 0, 1, [⟨[97], 0, 3, 4⟩], 3, 4⟩ [98] =
        (SPEEDSQL_NOTFOUND, ⟨.txnNone, 0, 1, [⟨[97], 0, 3, 4⟩], 3, 4⟩)
      ∧ speedsql_rollback_to ⟨.txnNone, 0, 1, [⟨[97], 0, 3, 4⟩], 3, 4⟩ [98] =
        (SPEEDSQL_NOTFOUND, ⟨.txnNone, 0, 1, [⟨[97], 0, 3, 4⟩], 3, 4⟩) :=
  C10_release_rollback_to_notfound ⟨.txnNone, 0, 1, [⟨[97], 0, 3, 4⟩], 3, 4⟩ [98]
    (by decide)

theorem isNumeric_cases {v : Value} (h : isNumeric v) :
    (∃ i, v = .int i) ∨ (∃ q, v = .float q) := by
  cases v with
  | int i => exact Or.inl ⟨i, rfl⟩
  | float q => exact Or.inr ⟨q, rfl⟩
  | null => exact absurd h (by intro hc; simp [isNumeric, typeCode] at hc)
  | text s => exact absurd h (by intro hc; simp [isNumeric, typeCode] at hc)
  | blob s => exact absurd h (by intro hc; simp [isNumeric, typeCode] at hc)
  | json s => exact absurd h (by intro hc; simp [isNumeric, typeCode] at hc)
  | vector l => exact absurd h (by intro hc; simp [isNumeric, typeCode] at hc)

/-! ### Claim C7 -/

/-- C7 (counterexample): dividing `Int 7` by `Int 2` yields `Float 3.5` —
the `TOK_SLASH` branch has no Int×Int case, so the result of `/` on two
Ints is not an Int. -/
theorem C7_int_division_counterexample :
    eval_expr ⟨[], 0, none⟩ (.bin .tokSlash (.lit (.int 7)) (.lit (.int 2))) =
        .ok (.float (7 / 2))
      ∧ typeCode (.float ((7 : Rat) / 2)) ≠ 1 := by
  constructor
  · show Except.ok (Value.float ((7 : Int) / (2 : Int) : Rat)) = _
    norm_num
  · decide

/-- C7 (amended): in `eval_expr`, `+`, `-`, `*` over two Ints return Int
(with 64-bit wrap); over any other pair of numeric operands they promote
both to double and return Float; `/` never returns Int: with a zero
divisor (Int 0 or Float 0.0) it returns Null, and otherwise it returns the
Float quotient of the promoted operands, even for two Ints; a Null operand
to any binary operator other than IS yields Null. -/
theorem C7_eval_arith_behaviour (ctx : EvalCtx) :
    (∀ a b : Int,
        eval_expr ctx (.bin .tokPlus (.lit (.int a)) (.lit (.int b)))
            = .ok (.int (wrap64 (a + b)))
          ∧ eval_expr ctx (.bin .tokMinus (.lit (.int a)) (.lit (.int b)))
            = .ok (.int (wrap64 (a - b)))
          ∧ eval_expr ctx (.bin .tokStar (.lit (.int a)) (.lit (.int b)))
            = .ok (.int (wrap64 (a * b))))
      ∧ (∀ lv rv : Value, isNumeric lv → isNumeric rv →
          ¬(typeCode lv = 1 ∧ typeCode rv = 1) →
          eval_expr ctx (.bin .tokPlus (.lit lv) (.lit rv))
              = .ok (.float (numRat lv + numRat rv))
            ∧ eval_expr ctx (.bin .tokMinus (.lit lv) (.lit rv))
              = .ok (.float (numRat lv - numRat rv))
            ∧ eval_expr ctx (.bin .tokStar (.lit lv) (.lit rv))
              = .ok (.float (numRat lv * numRat rv)))
      ∧ (∀ lv : Value, lv ≠ .null →
          eval_expr ctx (.bin .tokSlash (.lit lv) (.lit (.int 0))) = .ok .null
            ∧ eval_expr ctx (.bin .tokSlash (.lit lv) (.lit (.float 0))) = .ok .null)
      ∧ (∀ lv rv : Value, isNumeric lv → isNumeric rv →
          rv ≠ .int 0 → rv ≠ .float 0 →
          eval_expr ctx (.bin .tokSlash (.lit lv) (.lit rv))
            = .ok (.float (numRat lv / numRat rv)))
      ∧ (∀ op : BinOp, op ≠ .tokIs → ∀ rv : Value,
          eval_expr ctx (.bin op (.lit .null) (.lit rv)) = .ok .null
            ∧ eval_expr ctx (.bin op (.lit rv) (.lit .null)) = .ok .null) := by
  refine ⟨?_, ?_, ?_, ?_, ?_⟩
  · intro a b
    refine ⟨rfl, rfl, rfl⟩
  · intro lv rv hl hr hni
    rcases isNumeric_cases hl with ⟨i, rfl⟩ | ⟨p, rfl⟩ <;>
      rcases isNumeric_cases hr with ⟨j, rfl⟩ | ⟨q, rfl⟩
    · exact absurd ⟨rfl, rfl⟩ hni
    · exact ⟨rfl, rfl, rfl⟩
    · exact ⟨rfl, rfl, rfl⟩
    · exact ⟨rfl, rfl, rfl⟩
  · intro lv hlv
    cases lv <;> first
      | exact absurd rfl hlv
      | exact ⟨rfl, rfl⟩
  · intro lv rv hl hr hz hq
    rcases isNumeric_cases hl with ⟨i, rfl⟩ | ⟨p, rfl⟩ <;>
      rcases isNumeric_cases hr with ⟨j, rfl⟩ | ⟨q, rfl⟩ <;>
      simp [eval_expr, hz, hq, dataF, numRat]
  · intro op hop rv
    constructor
    · simp [eval_expr, hop]
    · simp [eval_expr, hop]

/-- C7 witness: the amended theorem instantiated at concrete operands —
`3 + 4` stays Int, `3 + 0.5` promotes, `5 / 0` is Null, `7 / 2` is the
Float `3.5`, and `NULL = 1` is Null. -/
theorem C7_eval_arith_behaviour_witness :
    eval_expr ⟨[], 0, none⟩ (.bin .tokPlus (.lit (.int 3)) (.lit (.int 4)))
        = .ok (.int (wrap64 (3 + 4)))
      ∧ eval_expr ⟨[], 0, none⟩ (.bin .tokPlus (.lit (.int 3)) (.lit (.float (1 / 2))))
        = .ok (.float (numRat (.int 3) + numRat (.float (1 / 2))))
      ∧ eval_expr ⟨[], 0, none⟩ (.bin .tokSlash (.lit (.int 5)) (.lit (.int 0)))
        = .ok .null
      ∧ eval_expr ⟨[], 0, none⟩ (.bin .tokSlash (.lit (.int 7)) (.lit (.int 2)))
        = .ok (.float (numRat (.int 7) / numRat (.int 2)))
      ∧ eval_expr ⟨[], 0, none⟩ (.bin .tokEq (.lit .null) (.lit (.int 1)))
        = .ok .null :=
  ⟨((C7_eval_arith_behaviour ⟨[], 0, none⟩).1 3 4).1,
    ((C7_eval_arith_behaviour ⟨[], 0, none⟩).2.1
      (.int 3) (.float (1 / 2)) (by decide) (by decide) (by decide)).1,
    ((C7_eval_arith_behaviour ⟨[], 0, none⟩).2.2.1 (.int 5) (by decide)).1,
    (C7_eval_arith_behaviour ⟨[], 0, none⟩).2.2.2.1
      (.int 7) (.int 2) (by decide) (by decide) (by decide) (by decide),
    ((C7_eval_arith_behaviour ⟨[], 0, none⟩).2.2.2.2 .tokEq (by decide) (.int 1)).1⟩

/-! ### Claim C6 -/

/-- C6: the statements `SAVEPOINT s`, `RELEASE SAVEPOINT s` and
`ROLLBACK TO s` parse successfully to their ops, but `speedsql_step` does
not delegate them: each reaches the switch's `default:` and fails with
Error, while the Database-layer operation it should have delegated to
(here `speedsql_savepoint` on an in-transaction connection) would have
returned OK.  This contradicts the repository's own test
`savepoint_sql_syntax` (tests/test_main.cpp lines 509-535), which expects
`speedsql_exec(db, "SAVEPOINT mysave", …) == SPEEDSQL_OK`. -/
theorem C6_savepoint_stmt_not_delegated :
    parse_txn_stmt [.tSAVEPOINT, .tIdent [115]] = some ⟨.sqlSavepoint, some [115]⟩
      ∧ parse_txn_stmt [.tRELEASE, .tSAVEPOINT, .tIdent [115]]
        = some ⟨.sqlRelease, some [115]⟩
      ∧ parse_txn_stmt [.tROLLBACK, .tTO, .tIdent [115]]
        = some ⟨.sqlRollbackTo, some [115]⟩
      ∧ speedsql_step_dispatch .sqlSavepoint ⟨.txnRead, 2, 2, [], 0, 0⟩ ⟨false, 0, 0⟩ 0
        = (SPEEDSQL_ERROR, ⟨.txnRead, 2, 2, [], 0, 0⟩)
      ∧ speedsql_step_dispatch .sqlRelease ⟨.txnRead, 2, 2, [], 0, 0⟩ ⟨false, 0, 0⟩ 0
        = (SPEEDSQL_ERROR, ⟨.txnRead, 2, 2, [], 0, 0⟩)
      ∧ speedsql_step_dispatch .sqlRollbackTo ⟨.txnRead, 2, 2, [], 0, 0⟩ ⟨false, 0, 0⟩ 0
        = (SPEEDSQL_ERROR, ⟨.txnRead, 2, 2, [], 0, 0⟩)
      ∧ speedsql_savepoint ⟨.txnRead, 2, 2, [], 0, 0⟩ [115] ⟨false, SPEEDSQL_OK, 0⟩
        = (SPEEDSQL_OK, ⟨.txnRead, 2, 2, [⟨[115], 0, 0, 0⟩], 0, 0⟩)
      ∧ SPEEDSQL_ERROR ≠ SPEEDSQL_OK := by
  decide

theorem mem_find_or_add_txn {txns : List TxnStatus} {t : Nat} {st : TxnStatus}
    (h : st ∈ find_or_add_txn txns t) : st ∈ txns ∨ st = ⟨t, false, false⟩ := by
  unfold find_or_add_txn at h
  split at h
  · exact Or.inl h
  · rcases List.mem_append.1 h with h1 | h1
    · exact Or.inl h1
    · exact Or.inr (by simpa using h1)

theorem subset_find_or_add_txn {txns : List TxnStatus} (t : Nat) {st : TxnStatus}
    (h : st ∈ txns) : st ∈ find_or_add_txn txns t := by
  unfold find_or_add_txn
  split
  · exact h
  · exact List.mem_append.2 (Or.inl h)

theorem exists_find_or_add_txn (txns : List TxnStatus) (t : Nat) :
    ∃ st ∈ find_or_add_txn txns t, st.txnId = t := by
  unfold find_or_add_txn
  by_cases hmem : txns.any (fun st => st.txnId = t) = true
  · rw [if_pos hmem]
    rcases List.any_eq_true.1 hmem with ⟨st, hst, hp⟩
    exact ⟨st, hst, by simpa using hp⟩
  · rw [if_neg hmem]
    exact ⟨⟨t, false, false⟩, List.mem_append.2 (Or.inr (by simp)), rfl⟩

theorem walShouldApply_markTxn_iff (txns : List TxnStatus) (t ty x : Nat) :
    walShouldApply (markTxn txns t ty) x = true ↔
      (walShouldApply txns x = true ∨ (t = x ∧ ty = WAL_RECORD_COMMIT)) := by
  unfold walShouldApply markTxn
  rw [List.any_map, List.any_eq_true, List.any_eq_true]
  constructor
  · rintro ⟨st, hst, hp⟩
    simp only [Function.comp, Bool.and_eq_true, decide_eq_true_eq] at hp
    by_cases hid : st.txnId = t
    · rw [if_pos hid] at hp
      by_cases hty : ty = WAL_RECORD_COMMIT
      · rw [if_pos hty] at hp
        right
        refine ⟨?_, hty⟩
        have : st.txnId = x := hp.1
        omega
      · rw [if_neg hty] at hp
        rcases mem_find_or_add_txn hst with h1 | h1
        · left
          refine ⟨st, h1, ?_⟩
          by_cases hrb : ty = WAL_RECORD_ROLLBACK
          · rw [if_pos hrb] at hp
            simp only [Bool.and_eq_true, decide_eq_true_eq]
            exact ⟨hp.1, hp.2⟩
          · rw [if_neg hrb] at hp
            simp only [Bool.and_eq_true, decide_eq_true_eq]
            exact hp
        · exfalso
          subst h1
          by_cases hrb : ty = WAL_RECORD_ROLLBACK
          · rw [if_pos hrb] at hp
            exact absurd hp.2 (by simp)
          · rw [if_neg hrb] at hp
            exact absurd hp.2 (by simp)
    · rw [if_neg hid] at hp
      rcases mem_find_or_add_txn hst with h1 | h1
      · left
        exact ⟨st, h1, by simp only [Bool.and_eq_true, decide_eq_true_eq]; exact hp⟩
      · exact absurd (by rw [h1]) hid
  · rintro (⟨st, hst, hp⟩ | ⟨htx, hty⟩)
    · simp only [Bool.and_eq_true, decide_eq_true_eq] at hp
      refine ⟨st, subset_find_or_add_txn t hst, ?_⟩
      simp only [Function.comp, Bool.and_eq_true, decide_eq_true_eq]
      by_cases hid : st.txnId = t
      · rw [if_pos hid]
        by_cases hty : ty = WAL_RECORD_COMMIT
        · rw [if_pos hty]
          exact ⟨hp.1, rfl⟩
        · rw [if_neg hty]
          by_cases hrb : ty = WAL_RECORD_ROLLBACK
          · rw [if_pos hrb]; exact ⟨hp.1, hp.2⟩
          · rw [if_neg hrb]; exact hp
      · rw [if_neg hid]
        exact hp
    · subst htx
      subst hty
      rcases exists_find_or_add_txn txns t with ⟨st, hst, hid⟩
      refine ⟨st, hst, ?_⟩
      simp only [Function.comp, Bool.and_eq_true, decide_eq_true_eq]
      simp [hid]

theorem walShouldApply_foldl (recs : List WalRecord) (init : List TxnStatus) (x : Nat) :
    walShouldApply
        (recs.foldl (fun txns r => markTxn txns r.txnId r.rtype) init) x = true ↔
      (walShouldApply init x = true
        ∨ ∃ r ∈ recs, r.txnId = x ∧ r.rtype = WAL_RECORD_COMMIT) := by
  induction recs generalizing init with
  | nil => simp
  | cons r rest ih =>
    rw [List.foldl_cons, ih, walShouldApply_markTxn_iff]
    constructor
    · rintro ((h | h) | ⟨r2, hr2, hp⟩)
      · exact Or.inl h
      · exact Or.inr ⟨r, List.mem_cons_self r rest, h⟩
      · exact Or.inr ⟨r2, List.mem_cons_of_mem r hr2, hp⟩
    · rintro (h | ⟨r2, hr2, hp⟩)
      · exact Or.inl (Or.inl h)
      · rcases List.mem_cons.1 hr2 with h1 | h1
        · subst h1
          exact Or.inl (Or.inr hp)
        · exact Or.inr ⟨r2, h1, hp⟩

theorem walShouldApply_scan_iff (recs : List WalRecord) (x : Nat) :
    walShouldApply (walScanStatuses recs) x = true ↔ hasCommitRecord recs x := by
  unfold walScanStatuses hasCommitRecord
  rw [walShouldApply_foldl]
  simp [walShouldApply]

/-! ### Claim C2 -/

/-- C2: `wal_recover` writes, for every page record (with a valid page id)
in the scanned prefix whose transaction has a commit record anywhere in
that prefix, the record's after-image to the page's byte offset in the
database file, and every write it performs comes from such a record —
records of transactions that were rolled back (which, absent a
contradictory log, have no commit record) or have neither a commit nor a
rollback record are never applied. -/
theorem C2_wal_recover_applies_committed (currentLsn pageSize : Nat)
    (recs : List WalRecord)
    (hlen : ∀ r ∈ walValidRecords currentLsn recs, r.after.length = r.dataLen)
    (hdisj : ∀ r ∈ walValidRecords currentLsn recs,
        r.rtype = WAL_RECORD_ROLLBACK →
        ¬ hasCommitRecord (walValidRecords currentLsn recs) r.txnId) :
    (∀ r ∈ walValidRecords currentLsn recs,
        r.rtype = WAL_RECORD_PAGE → r.pageId ≠ invalidPageId →
        hasCommitRecord (walValidRecords currentLsn recs) r.txnId →
        (r.pageId * pageSize, r.after) ∈ wal_recover_writes currentLsn pageSize recs)
      ∧ (∀ w ∈ wal_recover_writes currentLsn pageSize recs,
          ∃ r ∈ walValidRecords currentLsn recs,
            r.rtype = WAL_RECORD_PAGE
              ∧ hasCommitRecord (walValidRecords currentLsn recs) r.txnId
              ∧ ¬ hasRollbackRecord (walValidRecords currentLsn recs) r.txnId
              ∧ w = (r.pageId * pageSize, r.after)) := by
  constructor
  · intro r hr hpage hpid hcommit
    unfold wal_recover_writes
    rw [List.mem_filterMap]
    refine ⟨r, hr, ?_⟩
    rw [if_pos ⟨hpage, (walShouldApply_scan_iff _ _).2 hcommit, hpid⟩]
    rw [← hlen r hr, List.take_length]
  · intro w hw
    unfold wal_recover_writes at hw
    rw [List.mem_filterMap] at hw
    rcases hw with ⟨r, hr, hf⟩
    by_cases hcond : r.rtype = WAL_RECORD_PAGE
        ∧ walShouldApply (walScanStatuses (walValidRecords currentLsn recs)) r.txnId = true
        ∧ r.pageId ≠ invalidPageId
    · rw [if_pos hcond] at hf
      have hcommit := (walShouldApply_scan_iff _ _).1 hcond.2.1
      refine ⟨r, hr, hcond.1, hcommit, ?_, ?_⟩
      · intro hrb
        rcases hrb with ⟨r2, hr2, hid2, hty2⟩
        exact hdisj r2 hr2 hty2 (by rw [hid2]; exact hcommit)
      · rw [← hlen r hr, List.take_length] at hf
        exact (Option.some_inj.1 hf).symm ▸ rfl
    · rw [if_neg hcond] at hf
      exact absurd hf (by simp)

/-- C2 witness: the theorem instantiated on a concrete five-record log —
committed transaction 7's page record is applied, rolled-back transaction
8's and in-flight transaction 9's are not. -/
theorem C2_wal_recover_applies_committed_witness :
    (3 * 16384, [5, 6]) ∈
      wal_recover_writes 10 16384
        [⟨1, 7, WAL_RECORD_PAGE, 3, 2, [0, 0], [5, 6]⟩,
          ⟨2, 7, WAL_RECORD_COMMIT, invalidPageId, 0, [], []⟩,
          ⟨3, 8, WAL_RECORD_PAGE, 4, 1, [0], [9]⟩,
          ⟨4, 8, WAL_RECORD_ROLLBACK, invalidPageId, 0, [], []⟩,
          ⟨5, 9, WAL_RECORD_PAGE, 5, 1, [0], [8]⟩] :=
  (C2_wal_recover_applies_committed 10 16384 _ (by decide) (by decide)).1
    ⟨1, 7, WAL_RECORD_PAGE, 3, 2, [0, 0], [5, 6]⟩ (by decide) (by decide) (by decide)
    (by decide)

/-! ### Claim C1

With page size 112 a leaf holds exactly two 8-byte-key/8-byte-value cells
(`112 - 58 - 2·2 = 50 < 3·22`), so the third insert splits the root leaf.
The separator — the first key of the new right leaf, an inserted key —
is then routed wrongly by every later lookup: `search_internal` descends
to `child[lo]` where `lo` is the first index with `cmp(key, keys[lo]) ≤ 0`,
so a key EQUAL to the separator goes to the LEFT child, but the separator
itself lives in the RIGHT leaf.  The same routing occurs at the production
page size 16384 once the leaf fills (≈743 such cells); the small page only
keeps the evaluation concrete. -/

/-- C1: after inserting three distinct keys into a fresh tree (the third
forcing a leaf split and a new internal root), every insert reported OK,
yet `btree_find` of the middle key — the separator — returns NotFound,
while the other two keys are still found with their values.  The claim
says find returns OK with the inserted value for all three. -/
theorem C1_find_separator_fails :
    (btree_insert (btree_create 112 0) (btDemoKey 1) (btDemoVal 1) 8).1 = SPEEDSQL_OK
      ∧ (btree_insert (btree_insert (btree_create 112 0) (btDemoKey 1) (btDemoVal 1) 8).2
          (btDemoKey 2) (btDemoVal 2) 8).1 = SPEEDSQL_OK
      ∧ (btree_insert (btree_insert (btree_insert (btree_create 112 0)
          (btDemoKey 1) (btDemoVal 1) 8).2 (btDemoKey 2) (btDemoVal 2) 8).2
          (btDemoKey 3) (btDemoVal 3) 8).1 = SPEEDSQL_OK
      ∧ btree_find (btree_insert (btree_insert (btree_insert (btree_create 112 0)
          (btDemoKey 1) (btDemoVal 1) 8).2 (btDemoKey 2) (btDemoVal 2) 8).2
          (btDemoKey 3) (btDemoVal 3) 8).2 (btDemoKey 2) 8
        = .error SPEEDSQL_NOTFOUND
      ∧ btree_find (btree_insert (btree_insert (btree_insert (btree_create 112 0)
          (btDemoKey 1) (btDemoVal 1) 8).2 (btDemoKey 2) (btDemoVal 2) 8).2
          (btDemoKey 3) (btDemoVal 3) 8).2 (btDemoKey 1) 8
        = .ok (btDemoVal 1)
      ∧ btree_find (btree_insert (btree_insert (btree_insert (btree_create 112 0)
          (btDemoKey 1) (btDemoVal 1) 8).2 (btDemoKey 2) (btDemoVal 2) 8).2
          (btDemoKey 3) (btDemoVal 3) 8).2 (btDemoKey 3) 8
        = .ok (btDemoVal 3) := by
  decide

/-! ### Claim C3

With page size 150 a leaf holds exactly four such cells.  Re-inserting an
existing key into the full leaf hits the Full check of `insert_into_leaf`
BEFORE the duplicate check, so `btree_insert` splits the leaf first; the
re-insert into the right half then reports Constraint, and `split_leaf`
returns with the leaf already split — the root still points at the old
(left) leaf, whose upper cells have moved to a page no internal node
references.  The failed duplicate insert returns Constraint but has
destroyed access to half the keys. -/

/-- C3: on a tree whose single (root) leaf is full with keys 1..4,
re-inserting key 4 returns Constraint — but the operation is not undone:
key 3 (and key 4 itself), found before the failed insert, are NotFound
afterwards, so the tree's key-value contents and page structure changed. -/
theorem C3_duplicate_insert_corrupts_full_leaf :
    (btree_insert (btree_insert (btree_insert (btree_insert (btree_create 150 0)
        (btDemoKey 1) (btDemoVal 1) 8).2 (btDemoKey 2) (btDemoVal 2) 8).2
        (btDemoKey 3) (btDemoVal 3) 8).2 (btDemoKey 4) (btDemoVal 4) 8).1 = SPEEDSQL_OK
      ∧ btree_find (btree_insert (btree_insert (btree_insert (btree_insert
          (btree_create 150 0) (btDemoKey 1) (btDemoVal 1) 8).2
          (btDemoKey 2) (btDemoVal 2) 8).2 (btDemoKey 3) (btDemoVal 3) 8).2
          (btDemoKey 4) (btDemoVal 4) 8).2 (btDemoKey 3) 8
        = .ok (btDemoVal 3)
      ∧ (btree_insert (btree_insert (btree_insert (btree_insert (btree_insert
          (btree_create 150 0) (btDemoKey 1) (btDemoVal 1) 8).2
          (btDemoKey 2) (btDemoVal 2) 8).2 (btDemoKey 3) (btDemoVal 3) 8).2
          (btDemoKey 4) (btDemoVal 4) 8).2 (btDemoKey 4) (btDemoVal 9) 8).1
        = SPEEDSQL_CONSTRAINT
      ∧ btree_find (btree_insert (btree_insert (btree_insert (btree_insert
          (btree_insert (btree_create 150 0) (btDemoKey 1) (btDemoVal 1) 8).2
          (btDemoKey 2) (btDemoVal 2) 8).2 (btDemoKey 3) (btDemoVal 3) 8).2
          (btDemoKey 4) (btDemoVal 4) 8).2 (btDemoKey 4) (btDemoVal 9) 8).2
          (btDemoKey 3) 8
        = .error SPEEDSQL_NOTFOUND
      ∧ btree_find (btree_insert (btree_insert (btree_insert (btree_insert
          (btree_insert (btree_create 150 0) (btDemoKey 1) (btDemoVal 1) 8).2
          (btDemoKey 2) (btDemoVal 2) 8).2 (btDemoKey 3) (btDemoVal 3) 8).2
          (btDemoKey 4) (btDemoVal 4) 8).2 (btDemoKey 4) (btDemoVal 9) 8).2
          (btDemoKey 4) 8
        = .error SPEEDSQL_NOTFOUND := by
  decide

end SpeedSQL
